import Mathlib

set_option linter.unusedVariables false

/-!
Verification development for the MoodDoctor client (mood-doc-web).

The development shallowly embeds the chat orchestration / mood-event pipeline:
the two AI provider adapters (`analyzeMultimodalMood` in geminiService and
`callOpenRouter` in openRouterService), the chat send handler (`handleSend` in
ChatWindow), the mood-log merge (`handleMoodDetected` in App), and the
persistence adapter (`cloudService.saveMoodEntry`).  Network transport, the
browser runtime and the Supabase SDK are external to the repository; their
outcomes (HTTP success or failure, the response body, the result of
`JSON.parse`, the success or failure of a persistence call) enter the
embedding as explicit parameters, while everything the repository's own code
computes from those outcomes is translated line by line from the source.
-/

/-- JSON values, the possible results of a successful `JSON.parse` call.
Numbers are modelled as rationals; field lists are the parsed object's
key/value pairs (a `JSON.parse` result has no duplicate keys). -/
inductive Json where
  | null : Json
  | bool (b : Bool) : Json
  | num (q : Rat) : Json
  | str (s : String) : Json
  | arr (elems : List Json) : Json
  | obj (fields : List (String × Json)) : Json

/-- Look a key up in a parsed object's field list (first match). -/
def lookupField : List (String × Json) → String → Option Json
  | [], _ => none
  | (k1, v) :: rest, k => if k1 = k then some v else lookupField rest k

/-- JavaScript property read `j.k` on a non-null JSON value: a field of an
object, `undefined` (`none`) on any other value or a missing key.  (Reading a
property of `null` throws; the call sites below handle that case
separately.) -/
def getField : Json → String → Option Json
  | Json.obj fs, k => lookupField fs k
  | _, _ => none

/-- The `SupportMode` string enum of `src/types.ts`. -/
inductive SupportMode where
  | LISTENING : SupportMode
  | CALMING : SupportMode
  | MOTIVATION : SupportMode
  | STABILITY : SupportMode
  | CRISIS_AWARE : SupportMode
deriving DecidableEq, Repr

/-- The runtime (string) value of a `SupportMode` enum member: TypeScript
string enums erase to their string values. -/
def SupportMode.toStr : SupportMode → String
  | SupportMode.LISTENING => "LISTENING"
  | SupportMode.CALMING => "CALMING"
  | SupportMode.MOTIVATION => "MOTIVATION"
  | SupportMode.STABILITY => "STABILITY"
  | SupportMode.CRISIS_AWARE => "CRISIS_AWARE"

/-- The `MoodState` record of `src/types.ts`. -/
structure MoodState where
  dominant_mood : String
  energy_level : String
  stability : String
  risk_score : Rat
deriving DecidableEq, Repr

/-- The list `ALLOWED_MOODS` from geminiService. -/
def ALLOWED_MOODS : List String :=
  ["Happy", "Sad", "Anxious", "Angry", "Neutral",
   "Excited", "Tired", "Fearful", "Surprised",
   "Frustrated", "Melancholy"]

/-- The normalized result both adapters resolve with, at its runtime shape:
`mood_state` and `response` are whatever JSON values the provider sent
(`none` = the JavaScript `undefined`), and `mode` is a string, since the
TypeScript `SupportMode` annotations are casts that do not check at runtime. -/
structure AIResult where
  mood_state : Option Json
  mode : String
  response : Option Json

/-- Encode a schema-shaped `mood_state` back into a JSON value. -/
def encodeMoodState (ms : MoodState) : Json :=
  Json.obj [("dominant_mood", Json.str ms.dominant_mood),
            ("energy_level", Json.str ms.energy_level),
            ("stability", Json.str ms.stability),
            ("risk_score", Json.num ms.risk_score)]

/-- The message of the error thrown by `analyzeMultimodalMood`'s catch
block. -/
def geminiErrMsg : String :=
  "I couldn't process the emotional data right now. Please try again."

/-- A parsed Gemini response body.  The request in geminiService sets
`responseMimeType: "application/json"` and a `responseSchema` requiring
`mood_state` (with string `dominant_mood`, `energy_level`, `stability` and
numeric `risk_score`), a string `support_mode` and a string `message`, so a
successfully parsed body has exactly this shape. -/
structure GeminiPayload where
  mood_state : MoodState
  support_mode : String
  message : String
deriving DecidableEq, Repr

/-- JavaScript `toUpperCase`, character by character (the values compared
against are ASCII). -/
def jsToUpper (s : String) : String :=
  String.mk (s.data.map Char.toUpper)

/-- Model of `analyzeMultimodalMood` from geminiService, lines 148-192, after the
network call: `fetchOutcome` is the outcome of `ai.models.generateContent`
combined with `JSON.parse(response.text || "{}")` — `Except.error` for a
failed request, `Except.ok none` for a run in which `JSON.parse` threw or the
parsed value did not carry the schema shape (the subsequent property accesses
throw), `Except.ok (some data)` for a schema-shaped parse.  Every throw is
caught by the adapter's catch block and rethrown as the fixed error
`geminiErrMsg`.  On success the adapter replaces an out-of-list
`dominant_mood` by `"Neutral"` and returns `support_mode` merely uppercased
(`data.support_mode.toUpperCase() as SupportMode` is an unchecked cast). -/
def analyzeMultimodalMood (fetchOutcome : Except String (Option GeminiPayload)) :
    Except String AIResult :=
  match fetchOutcome with
  | Except.error _ => Except.error geminiErrMsg
  | Except.ok none => Except.error geminiErrMsg
  | Except.ok (some data) =>
    let ms :=
      if ALLOWED_MOODS.contains data.mood_state.dominant_mood then data.mood_state
      else { data.mood_state with dominant_mood := "Neutral" }
    Except.ok ⟨some (encodeMoodState ms), jsToUpper data.support_mode,
               some (Json.str data.message)⟩

/-- Model of `coerceSupportMode` from openRouterService, lines 135-142:
`typeof value === 'string' ? value.toUpperCase() : ''`, then four explicit
comparisons, defaulting to `LISTENING`. -/
def coerceSupportMode (value : Option Json) : SupportMode :=
  let raw := match value with
    | some (Json.str s) => jsToUpper s
    | _ => ""
  if raw = "CALMING" then SupportMode.CALMING
  else if raw = "MOTIVATION" then SupportMode.MOTIVATION
  else if raw = "STABILITY" then SupportMode.STABILITY
  else if raw = "CRISIS_AWARE" then SupportMode.CRISIS_AWARE
  else SupportMode.LISTENING

/-- The fallback mood state literal of openRouterService, lines 156-161. -/
def defaultMoodJson : Json :=
  Json.obj [("dominant_mood", Json.str "Neutral"),
            ("energy_level", Json.str "medium"),
            ("stability", Json.str "stable"),
            ("risk_score", Json.num 0)]

/-- The inner `try { JSON.parse(content); return {...} } catch { ... }` of
`callOpenRouter`, lines 144-165.  `parseResult` is the outcome of
`JSON.parse(content)` (`none` when it throws).  The property reads
`parsed.mood_state`, `parsed.support_mode`, `parsed.message` are inside the
same try, so a parse result of `null` (whose property reads throw) also lands
in the fallback branch.  The fallback substitutes the raw `content` string as
the response with the default mood state and `LISTENING`; the success branch
returns `parsed.mood_state` and `parsed.message` unchecked and coerces only
the support mode. -/
def openRouterParse (content : String) (parseResult : Option Json) : AIResult :=
  match parseResult with
  | none =>
      ⟨some defaultMoodJson, SupportMode.LISTENING.toStr, some (Json.str content)⟩
  | some Json.null =>
      ⟨some defaultMoodJson, SupportMode.LISTENING.toStr, some (Json.str content)⟩
  | some parsed =>
      ⟨getField parsed "mood_state",
       (coerceSupportMode (getField parsed "support_mode")).toStr,
       getField parsed "message"⟩

/-- Model of `callOpenRouter` from openRouterService, lines 10-175, after the network
call: throws when the API key is missing; `fetchOutcome` is the outcome of the
fetch together with the extraction `data.choices[0].message.content` —
`Except.error` models `!response.ok` (the adapter throws) as well as a network
failure or a malformed completion envelope (the outer catch rethrows), and
`Except.ok (content, parseResult)` carries the content string and the outcome
of `JSON.parse(content)`.  The parsing itself never throws past the adapter
(`openRouterParse`). -/
def callOpenRouter (apiKeyPresent : Bool)
    (fetchOutcome : Except String (String × Option Json)) :
    Except String AIResult :=
  if !apiKeyPresent then Except.error "OpenRouter API Key is missing"
  else
    match fetchOutcome with
    | Except.error e => Except.error e
    | Except.ok (content, parseResult) =>
        Except.ok (openRouterParse content parseResult)

/-- Chat message roles (`'user' | 'assistant'` in `src/types.ts`). -/
inductive Role where
  | user : Role
  | assistant : Role
deriving DecidableEq, Repr

/-- The `Message` record of `src/types.ts` at its runtime shape inside
ChatWindow: `content` holds whatever value was assigned (a string for user
messages, `data.response` for assistant messages), `timestamp` is the
`Date.now()` tick at creation. -/
structure Message where
  id : String
  role : Role
  content : Json
  timestamp : Nat
  mood_state : Option Json
  mode : Option String

/-- Observable calls the client issues: the two provider requests, the
`onMoodDetected` callback invocation, and the cloudService persistence
calls. -/
inductive Event where
  | geminiCall (text : String) (history : List (Role × Json)) : Event
  | openRouterCall (msgs : List (Role × Json)) : Event
  | moodDetected (mood : Option Json) (mode : String) : Event
  | saveMessageCall (m : Message) (convId : String) : Event
  | saveMoodEntryCall (date mood energy : String) (score : Int) : Event
  | createConversationCall (title : String) : Event
  | getConversationsCall : Event
  | getMessagesCall (convId : String) : Event
  | getMoodLogsCall : Event

/-- The ChatWindow component state that `handleSend` reads and writes. -/
structure ChatState where
  messages : List Message
  inputText : String
  isTyping : Bool
  activeConvId : Option String

/-- The outcome of one `handleSend` invocation: the updated component state,
the ordered list of calls it issued, and — when a rejection escapes the
handler (there is one `await` outside its try/finally) — the escaping error
message. -/
structure SendResult where
  st : ChatState
  trace : List Event
  uncaught : Option String

/-- JavaScript `String.prototype.trim` whitespace. -/
def isJsSpace (c : Char) : Bool :=
  c = ' ' || c = '\t' || c = '\n' || c = '\r' ||
  c.toNat = 11 || c.toNat = 12 || c.toNat = 160 || c.toNat = 65279

/-- JavaScript `inputText.trim()`. -/
def jsTrim (s : String) : String :=
  String.mk (((s.data.dropWhile isJsSpace).reverse.dropWhile isJsSpace).reverse)

/-- JavaScript falsiness of `data.response` (`undefined`, `null`, `''`, `0`
and `false` are falsy). -/
def jsFalsy : Option Json → Bool
  | none => true
  | some Json.null => true
  | some (Json.str s) => s = ""
  | some (Json.num q) => q = 0
  | some (Json.bool b) => b = false
  | some (Json.arr _) => false
  | some (Json.obj _) => false

/-- The chat error bubble content built in `handleSend`'s catch block:
`error.message || 'Unknown error'` interpolated into the fixed sentence. -/
def errContent (emsg : String) : String :=
  "Sorry, I encountered an error: " ++
    (if emsg = "" then "Unknown error" else emsg) ++
    ". Please check your API keys in .env and try again."

/-- The error message appended by `handleSend`'s catch block (id
`(Date.now()+1).toString()`, role assistant, no mood data). -/
def mkErr (now : Nat) (emsg : String) : Message :=
  ⟨toString (now + 1), Role.assistant, Json.str (errContent emsg), now, none, none⟩

/-- JavaScript `messages.slice(-5)`: the last five elements (the whole list when it is
shorter). -/
def last5 (msgs : List Message) : List Message :=
  msgs.drop (msgs.length - 5)

/-- JavaScript `messages.slice(-5).map(m => ({ role: m.role, content: m.content }))`. -/
def toHist (msgs : List Message) : List (Role × Json) :=
  msgs.map (fun m => (m.role, m.content))

/-- The tail of `handleSend`'s try block once a provider resolved with
`data` (ChatWindow lines 307-325): the `!data || !data.response` guard (its
throw is caught by the same catch block, which appends the error bubble),
the `onMoodDetected` invocation, the assistant message append, and the
conditional save of the assistant message, whose failure is likewise caught
by the catch block after the append; the finally block resets `isTyping`.
`st1` is the component state with the user message already appended, `tr` the
trace so far, `persist` the value of `!isGuest && !activeConvId.startsWith('temp')`. -/
def afterData (st1 : ChatState) (tr : List Event) (data : AIResult) (now : Nat)
    (persist : Bool) (saveAsst : Except String Unit) (convId : String) : SendResult :=
  if jsFalsy data.response then
    ⟨{ st1 with messages := st1.messages ++ [mkErr now "No response received from AI"],
                isTyping := false }, tr, none⟩
  else
    let assistantMsg : Message :=
      ⟨toString (now + 1), Role.assistant, data.response.getD Json.null, now,
       data.mood_state, some data.mode⟩
    let tr1 := tr ++ [Event.moodDetected data.mood_state data.mode]
    let msgs2 := st1.messages ++ [assistantMsg]
    if persist then
      match saveAsst with
      | Except.ok _ =>
          ⟨{ st1 with messages := msgs2, isTyping := false },
           tr1 ++ [Event.saveMessageCall assistantMsg convId], none⟩
      | Except.error e =>
          ⟨{ st1 with messages := msgs2 ++ [mkErr now e], isTyping := false },
           tr1 ++ [Event.saveMessageCall assistantMsg convId], none⟩
    else
      ⟨{ st1 with messages := msgs2, isTyping := false }, tr1, none⟩

/-- Model of `handleSend` from ChatWindow, lines 256-345, one invocation.  The inputs
the browser and network supply are parameters: `now` the `Date.now()` tick,
`isGuest` the `md_is_guest` localStorage flag, `gem` and `orr` the outcomes
the two provider adapters would resolve or reject with on this turn, `sU` and
`sA` the outcomes of the two `cloudService.saveMessage` calls.  The guard
`!inputText.trim() || isTyping || !activeConvId` returns immediately (an
empty-string conversation id is falsy too).  The user-message save is awaited
outside the try/finally, so its rejection escapes the handler with `isTyping`
left true.  Gemini is attempted first with the current text and the last five
transcript messages; on any rejection OpenRouter is attempted once with the
same five messages plus the current text appended as a user turn; if that
also rejects, the catch block appends the error bubble and the finally block
resets `isTyping`. -/
def handleSend (st : ChatState) (isGuest : Bool) (now : Nat)
    (gem orr : Except String AIResult) (sU sA : Except String Unit) : SendResult :=
  match st.activeConvId with
  | none => ⟨st, [], none⟩
  | some convId =>
    if jsTrim st.inputText = "" ∨ st.isTyping ∨ convId = "" then ⟨st, [], none⟩
    else
      let userMsg : Message :=
        ⟨toString now, Role.user, Json.str st.inputText, now, none, none⟩
      let textToSend := st.inputText
      let st1 : ChatState :=
        { st with messages := st.messages ++ [userMsg], inputText := "", isTyping := true }
      let persist := !isGuest && !(convId.startsWith "temp")
      let tr0 : List Event :=
        if persist then [Event.saveMessageCall userMsg convId] else []
      match (if persist then sU else Except.ok ()) with
      | Except.error e => ⟨st1, tr0, some e⟩
      | Except.ok _ =>
        let hist := toHist (last5 st.messages)
        match gem with
        | Except.ok data =>
            afterData st1 (tr0 ++ [Event.geminiCall textToSend hist])
              data now persist sA convId
        | Except.error _ =>
          let orArg := hist ++ [(Role.user, Json.str textToSend)]
          match orr with
          | Except.ok data =>
              afterData st1
                (tr0 ++ [Event.geminiCall textToSend hist, Event.openRouterCall orArg])
                data now persist sA convId
          | Except.error e2 =>
              ⟨{ st1 with messages := st1.messages ++ [mkErr now e2], isTyping := false },
               tr0 ++ [Event.geminiCall textToSend hist, Event.openRouterCall orArg], none⟩

/-- The `MoodLogEntry` record of `src/types.ts` (`score` is produced by
`Math.round`, hence an integer). -/
structure MoodLogEntry where
  date : String
  mood : String
  energy : String
  score : Int
deriving DecidableEq, Repr

/-- JavaScript `Math.round` on the rationals the embedding uses: the floor of
`q + 1/2` (halves round up). -/
def jsRound (q : Rat) : Int :=
  Rat.floor (q + 1 / 2)

/-- JavaScript `Array.prototype.findIndex`: index of the first element
satisfying the predicate. -/
def findIndexD {α : Type} (p : α → Bool) : List α → Option Nat
  | [] => none
  | a :: as =>
      if p a then some 0
      else (findIndexD p as).map (fun i => i + 1)

/-- The `setMoodLogs` updater inside `handleMoodDetected` (App lines
119-127): find an existing entry for `today` with a linear scan; overwrite it
in place when found, append the new entry otherwise. -/
def updateMoodLogs (today : String) (newEntry : MoodLogEntry)
    (prev : List MoodLogEntry) : List MoodLogEntry :=
  match findIndexD (fun l => l.date == today) prev with
  | some i => prev.set i newEntry
  | none => prev ++ [newEntry]

/-- The outcome of one `handleMoodDetected` invocation: the updated mood log,
the persistence calls issued, and an escaping error, if any.  (The handler
also sets `currentMood` and `supportMode` from its arguments; those two
straight state writes carry no further logic.) -/
structure MoodDetectResult where
  logs : List MoodLogEntry
  trace : List Event
  uncaught : Option String

/-- Model of `handleMoodDetected` from App, lines 112-132.  `today` is
`new Date().toISOString().split('T')[0]`, `saveOutcome` the outcome the
`cloudService.saveMoodEntry` call would have.  The save is guarded by
`!isGuest` and has `.catch(console.error)` attached, so its failure is logged
and swallowed: the handler's result does not depend on `saveOutcome` and no
rejection escapes. -/
def handleMoodDetected (mood : MoodState) (today : String) (isGuest : Bool)
    (prev : List MoodLogEntry) (saveOutcome : Except String Unit) : MoodDetectResult :=
  let newScore := jsRound ((1 - mood.risk_score) * 100)
  let newEntry : MoodLogEntry :=
    ⟨today, mood.dominant_mood, mood.energy_level, newScore⟩
  let logs := updateMoodLogs today newEntry prev
  if isGuest then ⟨logs, [], none⟩
  else ⟨logs, [Event.saveMoodEntryCall today mood.dominant_mood mood.energy_level newScore], none⟩

/-- A row of the backend `mood_logs` table. -/
structure RemoteMoodRow where
  user_id : String
  date : String
  mood : String
  energy : String
  score : Int
deriving DecidableEq, Repr

/-- The backend upsert issued by `cloudService.saveMoodEntry` with
`onConflict: 'user_id,date'`: the row with the same `(user_id, date)` key is
replaced when one exists, otherwise the row is inserted.  (The conflict
resolution itself is PostgreSQL behaviour, modelled here by its documented
semantics; everything else is from `src/services/cloudService.ts`.) -/
def upsertMoodRow (row : RemoteMoodRow) (table : List RemoteMoodRow) :
    List RemoteMoodRow :=
  match findIndexD (fun r => r.user_id == row.user_id && r.date == row.date) table with
  | some i => table.set i row
  | none => table ++ [row]

/-- Model of `cloudService.saveMoodEntry`, lines 7-22: reads the authenticated user
(`none` when there is no session) and returns without any table write in that
case; otherwise upserts the entry keyed by `(user_id, date)`. -/
def saveMoodEntry (user : Option String) (entry : MoodLogEntry)
    (table : List RemoteMoodRow) : List RemoteMoodRow :=
  match user with
  | none => table
  | some uid =>
      upsertMoodRow ⟨uid, entry.date, entry.mood, entry.energy, entry.score⟩ table

/-- The backend calls `loadConversations` in ChatWindow (lines 216-228)
issues directly: it awaits `cloudService.getConversations()` first thing,
with no guest-mode check anywhere in its body — the `isGuest` flag is not
consulted.  (The state updates and the possible nested `startNewChat` call
that follow the read are elided; only the issued backend call matters
here.) -/
def loadConversationsCalls (isGuest : Bool) : List Event :=
  [Event.getConversationsCall]

/-- The direct cloudService call of `startNewChat` in ChatWindow (lines
235-247): it awaits `cloudService.createConversation(title)` with no
guest-mode check; on failure it falls back to a `'temp-' + Date.now()`
conversation id. -/
def startNewChatCalls (isGuest : Bool) (title : String) : List Event :=
  [Event.createConversationCall title]

/-- Events that are persistence calls to the backend (every cloudService
call: writes and reads of `mood_logs`, `conversations` and `messages`). -/
def isPersistCallEv : Event → Bool
  | Event.saveMessageCall _ _ => true
  | Event.saveMoodEntryCall _ _ _ _ => true
  | Event.createConversationCall _ => true
  | Event.getConversationsCall => true
  | Event.getMessagesCall _ => true
  | Event.getMoodLogsCall => true
  | _ => false

/-- Events that are Gemini requests. -/
def isGemCallEv : Event → Bool
  | Event.geminiCall _ _ => true
  | _ => false

/-- Events that are OpenRouter requests. -/
def isORCallEv : Event → Bool
  | Event.openRouterCall _ => true
  | _ => false

/-- Events that are `onMoodDetected` invocations. -/
def isMoodDetectedEv : Event → Bool
  | Event.moodDetected _ _ => true
  | _ => false

/-- The scan `findIndexD` returns `none` exactly when no element satisfies the
predicate. -/
theorem findIndexD_eq_none_iff {α : Type} (p : α → Bool) (l : List α) :
    findIndexD p l = none ↔ ∀ a ∈ l, p a = false := by
  induction l with
  | nil => simp [findIndexD]
  | cons a as ih =>
    by_cases h : p a
    · simp [findIndexD, h]
    · simp [findIndexD, h, ih, Option.map_eq_none']

/-- A `findIndexD` hit is in range and satisfies the predicate. -/
theorem findIndexD_eq_some {α : Type} (p : α → Bool) (l : List α) (i : Nat)
    (h : findIndexD p l = some i) :
    ∃ hi : i < l.length, p (l.get ⟨i, hi⟩) = true := by
  induction l generalizing i with
  | nil => simp [findIndexD] at h
  | cons a as ih =>
    by_cases hpa : p a
    · simp [findIndexD, hpa] at h
      subst h
      exact ⟨Nat.succ_pos _, hpa⟩
    · simp [findIndexD, hpa, Option.map_eq_some'] at h
      obtain ⟨j, hj, rfl⟩ := h
      obtain ⟨hjl, hpj⟩ := ih j hj
      exact ⟨by simpa using Nat.succ_lt_succ hjl, by simpa using hpj⟩

/-- Replacing an element by one with the same key preserves pairwise key
distinctness. -/
theorem pairwise_key_set {α β : Type} (key : α → β) (l : List α) (i : Nat) (a : α)
    (hi : i < l.length) (hk : key a = key (l.get ⟨i, hi⟩))
    (hp : l.Pairwise (fun x y => key x ≠ key y)) :
    (l.set i a).Pairwise (fun x y => key x ≠ key y) := by
  rw [List.pairwise_iff_getElem] at hp ⊢
  intro m n hm hn hmn
  simp only [List.length_set] at hm hn
  rw [List.getElem_set, List.getElem_set]
  by_cases him : i = m
  · have hin : i ≠ n := by omega
    simp only [if_pos him, if_neg hin]
    rw [hk]
    exact hp i n (by omega) hn (by omega)
  · by_cases hin : i = n
    · simp only [if_neg him, if_pos hin]
      rw [hk]
      exact hp m i hm hi (by omega)
    · simp only [if_neg him, if_neg hin]
      exact hp m n hm hn hmn

/-- Appending an element whose key no existing element shares preserves
pairwise key distinctness. -/
theorem pairwise_key_append {α β : Type} (key : α → β) (l : List α) (a : α)
    (h : ∀ x ∈ l, key x ≠ key a)
    (hp : l.Pairwise (fun x y => key x ≠ key y)) :
    (l ++ [a]).Pairwise (fun x y => key x ≠ key y) := by
  rw [List.pairwise_append]
  exact ⟨hp, List.pairwise_singleton _ _, by
    intro x hx b hb
    rw [List.mem_singleton] at hb
    subst hb
    exact h x hx⟩

/-- After an update the log always holds an entry for the updated day. -/
theorem updateMoodLogs_mem_today (today : String) (ne1 : MoodLogEntry)
    (prev : List MoodLogEntry) (h : ne1.date = today) :
    ∃ e ∈ updateMoodLogs today ne1 prev, e.date = today := by
  unfold updateMoodLogs
  cases hf : findIndexD (fun l => l.date == today) prev with
  | none => exact ⟨ne1, by simp, h⟩
  | some i =>
    obtain ⟨hi, _⟩ := findIndexD_eq_some _ _ _ hf
    have hset : i < (prev.set i ne1).length := by simpa using hi
    refine ⟨(prev.set i ne1).get ⟨i, hset⟩, List.get_mem _ _ _, ?_⟩
    rw [List.get_eq_getElem, List.getElem_set_self]
    exact h

/-- When the log already holds an entry for the day, an update preserves its
length. -/
theorem updateMoodLogs_length_of_mem (today : String) (ne1 : MoodLogEntry)
    (prev : List MoodLogEntry) (h : ∃ e ∈ prev, e.date = today) :
    (updateMoodLogs today ne1 prev).length = prev.length := by
  unfold updateMoodLogs
  cases hf : findIndexD (fun l => l.date == today) prev with
  | none =>
    rw [findIndexD_eq_none_iff] at hf
    obtain ⟨e, he, hd⟩ := h
    have := hf e he
    simp [hd] at this
  | some i => simp [List.length_set]

/-- The handler `handleMoodDetected` computes its log by `updateMoodLogs`, in guest and
authenticated sessions alike. -/
theorem handleMoodDetected_logs (mood : MoodState) (today : String)
    (isGuest : Bool) (prev : List MoodLogEntry) (so : Except String Unit) :
    (handleMoodDetected mood today isGuest prev so).logs =
      updateMoodLogs today
        ⟨today, mood.dominant_mood, mood.energy_level,
         jsRound ((1 - mood.risk_score) * 100)⟩ prev := by
  unfold handleMoodDetected
  cases isGuest <;> simp

/-- The function `afterData` adds no event that `f` counts besides mood-detection and
assistant-save events. -/
theorem afterData_countP (st1 : ChatState) (tr : List Event) (data : AIResult)
    (now : Nat) (persist : Bool) (sA : Except String Unit) (convId : String)
    (f : Event → Bool)
    (hmood : ∀ m md, f (Event.moodDetected m md) = false)
    (hsave : ∀ m c, f (Event.saveMessageCall m c) = false) :
    ((afterData st1 tr data now persist sA convId).trace).countP f = tr.countP f := by
  unfold afterData
  by_cases h : jsFalsy data.response
  · simp [h]
  · cases persist with
    | false => simp [h, List.countP_append, List.countP_cons, hmood]
    | true =>
      cases sA <;> simp [h, List.countP_append, List.countP_cons, hmood, hsave]

/-- The trace of `afterData` extends the given prefix with events that are
never provider requests. -/
theorem afterData_trace_shape (st1 : ChatState) (tr : List Event) (data : AIResult)
    (now : Nat) (persist : Bool) (sA : Except String Unit) (convId : String) :
    ∃ tail, (afterData st1 tr data now persist sA convId).trace = tr ++ tail ∧
      tail.countP isGemCallEv = 0 ∧ tail.countP isORCallEv = 0 := by
  unfold afterData
  by_cases h : jsFalsy data.response
  · exact ⟨[], by simp [h], rfl, rfl⟩
  · by_cases hp2 : persist
    · cases sA with
      | ok u =>
        exact ⟨[Event.moodDetected data.mood_state data.mode,
                Event.saveMessageCall
                  ⟨toString (now + 1), Role.assistant, data.response.getD Json.null,
                   now, data.mood_state, some data.mode⟩ convId],
               by simp [h, hp2], rfl, rfl⟩
      | error e =>
        exact ⟨[Event.moodDetected data.mood_state data.mode,
                Event.saveMessageCall
                  ⟨toString (now + 1), Role.assistant, data.response.getD Json.null,
                   now, data.mood_state, some data.mode⟩ convId],
               by simp [h, hp2], rfl, rfl⟩
    · exact ⟨[Event.moodDetected data.mood_state data.mode],
             by simp [h, hp2], rfl, rfl⟩

/-- C10: if the input text is empty or only whitespace, or a reply is already
pending (`isTyping`), or there is no active conversation id, then `handleSend`
returns without changing any state: no message is appended to the transcript,
no provider call is made, and no persistence call is issued. -/
theorem c10_handleSend_guard (st : ChatState) (isGuest : Bool) (now : Nat)
    (gem orr : Except String AIResult) (sU sA : Except String Unit)
    (h : jsTrim st.inputText = "" ∨ st.isTyping = true ∨ st.activeConvId = none) :
    handleSend st isGuest now gem orr sU sA = ⟨st, [], none⟩ := by
  unfold handleSend
  rcases h with h | h | h
  · cases hc : st.activeConvId <;> simp [h]
  · cases hc : st.activeConvId <;> simp [h]
  · simp [h]

/-- C10 witness: a concrete whitespace-only input is a complete no-op. -/
theorem c10_handleSend_guard_witness :
    jsTrim "   " = "" ∧
    handleSend ⟨[], "   ", false, some "c1"⟩ false 0
        (Except.error "g") (Except.error "o") (Except.ok ()) (Except.ok ()) =
      ⟨⟨[], "   ", false, some "c1"⟩, [], none⟩ :=
  ⟨rfl, c10_handleSend_guard ⟨[], "   ", false, some "c1"⟩ false 0
      (Except.error "g") (Except.error "o") (Except.ok ()) (Except.ok ())
      (Or.inl rfl)⟩

/-- C2: `handleMoodDetected` overwrites the entry for the current calendar
day in place when one exists and appends a new entry otherwise, so repeated
detections on the same day never increase the log's length. -/
theorem c2_moodlog_upsert (mood : MoodState) (today : String) (isGuest : Bool)
    (prev : List MoodLogEntry) (so : Except String Unit) :
    ((∀ e ∈ prev, e.date ≠ today) →
        (handleMoodDetected mood today isGuest prev so).logs =
          prev ++ [⟨today, mood.dominant_mood, mood.energy_level,
                    jsRound ((1 - mood.risk_score) * 100)⟩]) ∧
    ((∃ e ∈ prev, e.date = today) →
        ((handleMoodDetected mood today isGuest prev so).logs).length = prev.length ∧
        ∃ i, ∃ hi : i < prev.length, (prev.get ⟨i, hi⟩).date = today ∧
          (handleMoodDetected mood today isGuest prev so).logs =
            prev.set i ⟨today, mood.dominant_mood, mood.energy_level,
                        jsRound ((1 - mood.risk_score) * 100)⟩) ∧
    (∀ (mood2 : MoodState) (so2 : Except String Unit),
        ((handleMoodDetected mood2 today isGuest
            (handleMoodDetected mood today isGuest prev so).logs so2).logs).length =
          ((handleMoodDetected mood today isGuest prev so).logs).length) := by
  refine ⟨?_, ?_, ?_⟩
  · intro h
    simp only [handleMoodDetected_logs]
    unfold updateMoodLogs
    have hf : findIndexD (fun l => l.date == today) prev = none := by
      rw [findIndexD_eq_none_iff]
      intro a ha
      simpa using h a ha
    rw [hf]
  · intro h
    simp only [handleMoodDetected_logs]
    cases hf : findIndexD (fun l => l.date == today) prev with
    | none =>
      rw [findIndexD_eq_none_iff] at hf
      obtain ⟨e, he, hd⟩ := h
      have := hf e he
      simp [hd] at this
    | some i =>
      obtain ⟨hi, hpi⟩ := findIndexD_eq_some _ _ _ hf
      refine ⟨?_, i, hi, by simpa using hpi, ?_⟩
      · unfold updateMoodLogs
        rw [hf]
        simp
      · unfold updateMoodLogs
        rw [hf]
  · intro mood2 so2
    simp only [handleMoodDetected_logs]
    exact updateMoodLogs_length_of_mem _ _ _ (updateMoodLogs_mem_today _ _ _ rfl)

/-- C2 witness: on a log holding an entry for the day, a detection keeps the
length at one. -/
theorem c2_moodlog_upsert_witness :
    (∃ e ∈ [(⟨"2026-10-11", "Sad", "low", 40⟩ : MoodLogEntry)],
        e.date = "2026-10-11") ∧
    ((handleMoodDetected ⟨"Happy", "low", "stable", 0⟩ "2026-10-11" true
        [⟨"2026-10-11", "Sad", "low", 40⟩] (Except.ok ())).logs).length = 1 :=
  ⟨⟨⟨"2026-10-11", "Sad", "low", 40⟩, by simp, rfl⟩,
   ((c2_moodlog_upsert ⟨"Happy", "low", "stable", 0⟩ "2026-10-11" true
        [⟨"2026-10-11", "Sad", "low", 40⟩] (Except.ok ())).2.1
      ⟨⟨"2026-10-11", "Sad", "low", 40⟩, by simp, rfl⟩).1⟩

/-- The upsert `upsertMoodRow` preserves pairwise-distinct `(user_id, date)` keys. -/
theorem upsertMoodRow_pairwise (row : RemoteMoodRow) (table : List RemoteMoodRow)
    (ht : table.Pairwise (fun a b => (a.user_id, a.date) ≠ (b.user_id, b.date))) :
    (upsertMoodRow row table).Pairwise
      (fun a b => (a.user_id, a.date) ≠ (b.user_id, b.date)) := by
  unfold upsertMoodRow
  cases hf : findIndexD
      (fun r => r.user_id == row.user_id && r.date == row.date) table with
  | none =>
    rw [findIndexD_eq_none_iff] at hf
    refine pairwise_key_append (fun r => (r.user_id, r.date)) table row ?_ ht
    intro x hx hcon
    have := hf x hx
    rw [Prod.mk.injEq] at hcon
    simp [hcon.1, hcon.2] at this
  | some i =>
    obtain ⟨hi, hpi⟩ := findIndexD_eq_some _ _ _ hf
    refine pairwise_key_set (fun r => (r.user_id, r.date)) table i row hi ?_ ht
    simp only [Bool.and_eq_true, beq_iff_eq] at hpi
    rw [Prod.mk.injEq]
    exact ⟨hpi.1.symm, hpi.2.symm⟩

/-- C8: a mood log with pairwise-distinct dates keeps pairwise-distinct dates
through `handleMoodDetected`, and the backend `mood_logs` table keeps
pairwise-distinct `(user_id, date)` keys through `saveMoodEntry`'s upsert. -/
theorem c8_distinct_dates (mood : MoodState) (today : String) (isGuest : Bool)
    (prev : List MoodLogEntry) (so : Except String Unit)
    (hp : prev.Pairwise (fun a b => a.date ≠ b.date)) :
    ((handleMoodDetected mood today isGuest prev so).logs).Pairwise
      (fun a b => a.date ≠ b.date) ∧
    ∀ (user : Option String) (entry : MoodLogEntry) (table : List RemoteMoodRow),
      table.Pairwise (fun a b => (a.user_id, a.date) ≠ (b.user_id, b.date)) →
      (saveMoodEntry user entry table).Pairwise
        (fun a b => (a.user_id, a.date) ≠ (b.user_id, b.date)) := by
  constructor
  · simp only [handleMoodDetected_logs]
    unfold updateMoodLogs
    cases hf : findIndexD (fun l => l.date == today) prev with
    | none =>
      rw [findIndexD_eq_none_iff] at hf
      refine pairwise_key_append MoodLogEntry.date prev _ ?_ hp
      intro x hx
      have := hf x hx
      simpa using this
    | some i =>
      obtain ⟨hi, hpi⟩ := findIndexD_eq_some _ _ _ hf
      refine pairwise_key_set MoodLogEntry.date prev i _ hi ?_ hp
      have h2 : (prev.get ⟨i, hi⟩).date = today := by simpa using hpi
      exact h2.symm
  · intro user entry table ht
    cases user with
    | none => exact ht
    | some uid => exact upsertMoodRow_pairwise _ table ht

/-- C8 witness: the invariant holds through a concrete detection on an empty
log and a concrete upsert into an empty table. -/
theorem c8_distinct_dates_witness :
    (([] : List MoodLogEntry).Pairwise (fun a b => a.date ≠ b.date)) ∧
    ((handleMoodDetected ⟨"Happy", "low", "stable", 0⟩ "2026-10-11" false []
        (Except.ok ())).logs).Pairwise (fun a b => a.date ≠ b.date) ∧
    (saveMoodEntry (some "u1") ⟨"2026-10-11", "Happy", "low", 100⟩ []).Pairwise
      (fun a b => (a.user_id, a.date) ≠ (b.user_id, b.date)) :=
  ⟨List.Pairwise.nil,
   (c8_distinct_dates ⟨"Happy", "low", "stable", 0⟩ "2026-10-11" false []
      (Except.ok ()) List.Pairwise.nil).1,
   (c8_distinct_dates ⟨"Happy", "low", "stable", 0⟩ "2026-10-11" false []
      (Except.ok ()) List.Pairwise.nil).2 (some "u1")
      ⟨"2026-10-11", "Happy", "low", 100⟩ [] List.Pairwise.nil⟩

/-- Evaluation of `handleSend` when the guard passes: the user message is
appended and saved (when persisting), then Gemini is attempted, then — only
on a Gemini rejection — OpenRouter, once. -/
theorem handleSend_eq (st : ChatState) (isGuest : Bool) (now : Nat)
    (gem orr : Except String AIResult) (sU sA : Except String Unit) (cid : String)
    (hcid : st.activeConvId = some cid) (htrim : jsTrim st.inputText ≠ "")
    (htyp : st.isTyping = false) (hcne : cid ≠ "") :
    handleSend st isGuest now gem orr sU sA =
      (let userMsg : Message :=
        ⟨toString now, Role.user, Json.str st.inputText, now, none, none⟩
       let st1 : ChatState :=
        { st with messages := st.messages ++ [userMsg], inputText := "",
                  isTyping := true }
       let persist := !isGuest && !(cid.startsWith "temp")
       let tr0 : List Event :=
        if persist then [Event.saveMessageCall userMsg cid] else []
       match (if persist then sU else Except.ok ()) with
       | Except.error e => ⟨st1, tr0, some e⟩
       | Except.ok _ =>
         let hist := toHist (last5 st.messages)
         match gem with
         | Except.ok data =>
             afterData st1 (tr0 ++ [Event.geminiCall st.inputText hist])
               data now persist sA cid
         | Except.error _ =>
           let orArg := hist ++ [(Role.user, Json.str st.inputText)]
           match orr with
           | Except.ok data =>
               afterData st1
                 (tr0 ++ [Event.geminiCall st.inputText hist,
                          Event.openRouterCall orArg])
                 data now persist sA cid
           | Except.error e2 =>
               ⟨{ st1 with messages := st1.messages ++ [mkErr now e2],
                           isTyping := false },
                tr0 ++ [Event.geminiCall st.inputText hist,
                        Event.openRouterCall orArg], none⟩) := by
  unfold handleSend
  rw [hcid]
  show (if jsTrim st.inputText = "" ∨ st.isTyping = true ∨ cid = "" then
          (⟨st, [], none⟩ : SendResult)
        else _) = _
  rw [if_neg (by simp [htrim, htyp, hcne])]

/-- The events `afterData` appends after the given prefix, as a function. -/
def afterDataTail (data : AIResult) (now : Nat) (persist : Bool)
    (convId : String) : List Event :=
  if jsFalsy data.response then []
  else if persist then
    [Event.moodDetected data.mood_state data.mode,
     Event.saveMessageCall
       ⟨toString (now + 1), Role.assistant, data.response.getD Json.null, now,
        data.mood_state, some data.mode⟩ convId]
  else [Event.moodDetected data.mood_state data.mode]

/-- The trace of `afterData` is the prefix followed by `afterDataTail`. -/
theorem afterData_trace_eq (st1 : ChatState) (tr : List Event) (data : AIResult)
    (now : Nat) (persist : Bool) (sA : Except String Unit) (convId : String) :
    (afterData st1 tr data now persist sA convId).trace =
      tr ++ afterDataTail data now persist convId := by
  unfold afterData afterDataTail
  by_cases h : jsFalsy data.response
  · simp [h]
  · by_cases hp2 : persist
    · cases sA <;> simp [h, hp2]
    · simp [h, hp2]

/-- The tail `afterDataTail` holds no Gemini request. -/
theorem afterDataTail_gem (data : AIResult) (now : Nat) (persist : Bool)
    (convId : String) :
    (afterDataTail data now persist convId).countP isGemCallEv = 0 := by
  unfold afterDataTail
  by_cases h : jsFalsy data.response
  · simp [h]
  · by_cases hp2 : persist <;>
      simp [h, hp2, List.countP_cons, isGemCallEv]

/-- The tail `afterDataTail` holds no OpenRouter request. -/
theorem afterDataTail_or (data : AIResult) (now : Nat) (persist : Bool)
    (convId : String) :
    (afterDataTail data now persist convId).countP isORCallEv = 0 := by
  unfold afterDataTail
  by_cases h : jsFalsy data.response
  · simp [h]
  · by_cases hp2 : persist <;>
      simp [h, hp2, List.countP_cons, isORCallEv]

/-- The tail `afterDataTail` holds no persistence call besides the assistant-message
save, and none at all when not persisting. -/
theorem afterDataTail_persist (data : AIResult) (now : Nat) (convId : String) :
    (afterDataTail data now false convId).countP isPersistCallEv = 0 := by
  unfold afterDataTail
  by_cases h : jsFalsy data.response <;>
    simp [h, List.countP_cons, isPersistCallEv]

/-- C1: for a user text message that passes the guard, a Gemini rejection
makes `handleSend` attempt OpenRouter exactly once, with the same
conversational context — the last five transcript messages plus the current
user text appended as a user turn — and the single OpenRouter request sits
directly after the single Gemini request in the issued-call trace (the two
are strictly sequential, never concurrent); when Gemini succeeds, OpenRouter
is never attempted. -/
theorem c1_provider_fallback (st : ChatState) (isGuest : Bool) (now : Nat)
    (gem orr : Except String AIResult) (sA : Except String Unit) (cid : String)
    (hcid : st.activeConvId = some cid) (htrim : jsTrim st.inputText ≠ "")
    (htyp : st.isTyping = false) (hcne : cid ≠ "") :
    (∀ e, gem = Except.error e →
        ((handleSend st isGuest now gem orr (Except.ok ()) sA).trace).countP
            isORCallEv = 1 ∧
        ((handleSend st isGuest now gem orr (Except.ok ()) sA).trace).countP
            isGemCallEv = 1 ∧
        ∃ pre post,
          (handleSend st isGuest now gem orr (Except.ok ()) sA).trace =
            pre ++ [Event.geminiCall st.inputText (toHist (last5 st.messages)),
                    Event.openRouterCall (toHist (last5 st.messages) ++
                      [(Role.user, Json.str st.inputText)])] ++ post ∧
          pre.countP isGemCallEv = 0 ∧ pre.countP isORCallEv = 0 ∧
          post.countP isGemCallEv = 0 ∧ post.countP isORCallEv = 0) ∧
    (∀ r, gem = Except.ok r →
        ((handleSend st isGuest now gem orr (Except.ok ()) sA).trace).countP
            isORCallEv = 0) := by
  have heq := handleSend_eq st isGuest now gem orr (Except.ok ()) sA cid
    hcid htrim htyp hcne
  constructor
  · intro e hg
    subst hg
    cases hpb : (!isGuest && !(cid.startsWith "temp")) with
    | false =>
      rw [heq]
      simp only [hpb, ite_self, Bool.false_eq_true, if_false]
      cases orr with
      | error e2 =>
        refine ⟨?_, ?_, [], [], ?_, rfl, rfl, rfl, rfl⟩
        · simp [List.countP_cons, isORCallEv, isGemCallEv]
        · simp [List.countP_cons, isORCallEv, isGemCallEv]
        · simp
      | ok data =>
        rw [afterData_trace_eq]
        refine ⟨?_, ?_, [], afterDataTail data now false cid, ?_, rfl, rfl,
          afterDataTail_gem data now false cid, afterDataTail_or data now false cid⟩
        · simp [List.countP_append, List.countP_cons, isORCallEv, isGemCallEv,
                afterDataTail_or]
        · simp [List.countP_append, List.countP_cons, isORCallEv, isGemCallEv,
                afterDataTail_gem]
        · simp
    | true =>
      rw [heq]
      simp only [hpb, ite_self, if_true]
      cases orr with
      | error e2 =>
        refine ⟨?_, ?_,
          [Event.saveMessageCall
            ⟨toString now, Role.user, Json.str st.inputText, now, none, none⟩ cid],
          [], ?_, rfl, rfl, rfl, rfl⟩
        · simp [List.countP_cons, List.countP_append, isORCallEv, isGemCallEv]
        · simp [List.countP_cons, List.countP_append, isORCallEv, isGemCallEv]
        · simp
      | ok data =>
        rw [afterData_trace_eq]
        refine ⟨?_, ?_,
          [Event.saveMessageCall
            ⟨toString now, Role.user, Json.str st.inputText, now, none, none⟩ cid],
          afterDataTail data now true cid, ?_, rfl, rfl,
          afterDataTail_gem data now true cid, afterDataTail_or data now true cid⟩
        · simp [List.countP_append, List.countP_cons, isORCallEv, isGemCallEv,
                afterDataTail_or]
        · simp [List.countP_append, List.countP_cons, isORCallEv, isGemCallEv,
                afterDataTail_gem]
        · simp
  · intro r hg
    subst hg
    cases hpb : (!isGuest && !(cid.startsWith "temp")) with
    | false =>
      rw [heq]
      simp only [hpb, ite_self, Bool.false_eq_true, if_false]
      rw [afterData_trace_eq]
      simp [List.countP_append, List.countP_cons, isORCallEv, afterDataTail_or]
    | true =>
      rw [heq]
      simp only [hpb, ite_self, if_true]
      rw [afterData_trace_eq]
      simp [List.countP_append, List.countP_cons, isORCallEv, afterDataTail_or]

/-- C1 witness: on a concrete state with a failing Gemini call, OpenRouter is
attempted exactly once. -/
theorem c1_provider_fallback_witness :
    jsTrim "hi" ≠ "" ∧
    ((handleSend ⟨[], "hi", false, some "c1"⟩ false 0 (Except.error "boom")
        (Except.ok ⟨some defaultMoodJson, "LISTENING", some (Json.str "ok")⟩)
        (Except.ok ()) (Except.ok ())).trace).countP isORCallEv = 1 :=
  ⟨by decide,
   (((c1_provider_fallback ⟨[], "hi", false, some "c1"⟩ false 0
        (Except.error "boom")
        (Except.ok ⟨some defaultMoodJson, "LISTENING", some (Json.str "ok")⟩)
        (Except.ok ()) "c1" rfl (by decide) rfl (by decide)).1) "boom" rfl).1⟩

/-- C6: when both providers fail, `handleSend` appends a visible error
message to the transcript, performs exactly one attempt per provider with no
further retry, does not invoke `onMoodDetected` (so the current mood and
support mode are unchanged), and nothing escapes the handler. -/
theorem c6_both_fail (st : ChatState) (isGuest : Bool) (now : Nat)
    (e1 e2 : String) (sA : Except String Unit) (cid : String)
    (hcid : st.activeConvId = some cid) (htrim : jsTrim st.inputText ≠ "")
    (htyp : st.isTyping = false) (hcne : cid ≠ "") :
    (handleSend st isGuest now (Except.error e1) (Except.error e2)
        (Except.ok ()) sA).st.messages =
      st.messages ++
        [⟨toString now, Role.user, Json.str st.inputText, now, none, none⟩,
         mkErr now e2] ∧
    ((handleSend st isGuest now (Except.error e1) (Except.error e2)
        (Except.ok ()) sA).trace).countP isGemCallEv = 1 ∧
    ((handleSend st isGuest now (Except.error e1) (Except.error e2)
        (Except.ok ()) sA).trace).countP isORCallEv = 1 ∧
    ((handleSend st isGuest now (Except.error e1) (Except.error e2)
        (Except.ok ()) sA).trace).countP isMoodDetectedEv = 0 ∧
    (handleSend st isGuest now (Except.error e1) (Except.error e2)
        (Except.ok ()) sA).uncaught = none := by
  have heq := handleSend_eq st isGuest now (Except.error e1) (Except.error e2)
    (Except.ok ()) sA cid hcid htrim htyp hcne
  cases hpb : (!isGuest && !(cid.startsWith "temp")) with
  | false =>
    rw [heq]
    simp only [hpb, ite_self, Bool.false_eq_true, if_false]
    refine ⟨by simp, ?_, ?_, ?_, ?_⟩ <;>
      simp [List.countP_cons, isGemCallEv, isORCallEv, isMoodDetectedEv]
  | true =>
    rw [heq]
    simp only [hpb, ite_self, if_true]
    refine ⟨by simp, ?_, ?_, ?_, ?_⟩ <;>
      simp [List.countP_cons, List.countP_append, isGemCallEv, isORCallEv,
            isMoodDetectedEv]

/-- C6 witness: a concrete double failure appends the error bubble and calls
each provider once. -/
theorem c6_both_fail_witness :
    jsTrim "hello" ≠ "" ∧
    (handleSend ⟨[], "hello", false, some "c1"⟩ true 7 (Except.error "a")
        (Except.error "b") (Except.ok ()) (Except.ok ())).st.messages =
      [⟨"7", Role.user, Json.str "hello", 7, none, none⟩, mkErr 7 "b"] :=
  ⟨by decide,
   (c6_both_fail ⟨[], "hello", false, some "c1"⟩ true 7 "a" "b" (Except.ok ())
      "c1" rfl (by decide) rfl (by decide)).1⟩

/-- C3 counterexample: a parseable OpenRouter response carrying the
out-of-list mood "Bogus" is propagated unchanged by `callOpenRouter` — the
returned `mood_state.dominant_mood` is "Bogus", not "Neutral" — refuting the
claim for the OpenRouter path. -/
theorem c3_counterexample :
    ALLOWED_MOODS.contains "Bogus" = false ∧
    callOpenRouter true (Except.ok ("raw",
        some (Json.obj
          [("mood_state", Json.obj [("dominant_mood", Json.str "Bogus")]),
           ("support_mode", Json.str "LISTENING"),
           ("message", Json.str "ok")]))) =
      Except.ok ⟨some (Json.obj [("dominant_mood", Json.str "Bogus")]),
                 "LISTENING", some (Json.str "ok")⟩ ∧
    Json.str "Bogus" ≠ Json.str "Neutral" := by
  refine ⟨rfl, rfl, ?_⟩
  intro h
  simp at h

/-- C3 amended: on the Gemini path a `dominant_mood` outside `ALLOWED_MOODS`
is coerced to "Neutral"; the OpenRouter path returns the parsed `mood_state`
unchecked — whatever mood value the provider sent is propagated — and only an
unparseable body yields the default "Neutral" mood state there. -/
theorem c3_amended (p : GeminiPayload)
    (hbad : ALLOWED_MOODS.contains p.mood_state.dominant_mood = false) :
    analyzeMultimodalMood (Except.ok (some p)) =
      Except.ok ⟨some (encodeMoodState
          { p.mood_state with dominant_mood := "Neutral" }),
        jsToUpper p.support_mode, some (Json.str p.message)⟩ ∧
    (∀ (content : String) (fs : List (String × Json)),
        (openRouterParse content (some (Json.obj fs))).mood_state =
          lookupField fs "mood_state") ∧
    (∀ content : String,
        (openRouterParse content none).mood_state = some defaultMoodJson) := by
  refine ⟨?_, fun content fs => rfl, fun content => rfl⟩
  unfold analyzeMultimodalMood
  have hmem : p.mood_state.dominant_mood ∉ ALLOWED_MOODS := by simpa using hbad
  simp [hmem]

/-- C3 amended witness: a concrete out-of-list Gemini mood is coerced to
"Neutral". -/
theorem c3_amended_witness :
    ALLOWED_MOODS.contains "Bogus" = false ∧
    analyzeMultimodalMood (Except.ok (some ⟨⟨"Bogus", "low", "stable", 0⟩,
        "LISTENING", "ok"⟩)) =
      Except.ok ⟨some (encodeMoodState ⟨"Neutral", "low", "stable", 0⟩),
                 "LISTENING", some (Json.str "ok")⟩ :=
  ⟨rfl, (c3_amended ⟨⟨"Bogus", "low", "stable", 0⟩, "LISTENING", "ok"⟩ rfl).1⟩

/-- C4 counterexample: a Gemini run whose response body does not parse makes
the adapter throw its wrapped fixed error instead of returning a result —
refuting, for the Gemini path, the claim that no exception escapes the
adapter on an unparseable body. -/
theorem c4_counterexample :
    analyzeMultimodalMood (Except.ok none) = Except.error geminiErrMsg := rfl

/-- C4 amended: on the OpenRouter path an unparseable response body yields a
returned (not thrown) result whose response is the raw text with the default
"Neutral" mood state and mode LISTENING; on the Gemini path the parse failure
is caught and rethrown as the adapter's fixed error, which in `handleSend`
then triggers the OpenRouter fallback. -/
theorem c4_amended :
    (∀ content : String,
        callOpenRouter true (Except.ok (content, none)) =
          Except.ok ⟨some defaultMoodJson, SupportMode.LISTENING.toStr,
                     some (Json.str content)⟩) ∧
    analyzeMultimodalMood (Except.ok none) = Except.error geminiErrMsg :=
  ⟨fun content => rfl, rfl⟩

/-- C7 counterexample: the Gemini path returns the uppercased support mode
unvalidated — the out-of-enum value "zen" comes back as "ZEN", not as the
safe default LISTENING — refuting the claim for the Gemini path. -/
theorem c7_counterexample :
    analyzeMultimodalMood (Except.ok (some ⟨⟨"Happy", "low", "stable", 0⟩,
        "zen", "hello"⟩)) =
      Except.ok ⟨some (encodeMoodState ⟨"Happy", "low", "stable", 0⟩), "ZEN",
                 some (Json.str "hello")⟩ ∧
    "ZEN" ≠ SupportMode.LISTENING.toStr := by
  refine ⟨rfl, ?_⟩
  decide

/-- C7 amended: the OpenRouter path coerces any support-mode value whose
uppercasing is outside the enum — and any non-string value — to LISTENING;
the Gemini path merely uppercases the provider's `support_mode` string and
propagates it without validation. -/
theorem c7_amended :
    (∀ (content : String) (fs : List (String × Json)) (s : String),
        lookupField fs "support_mode" = some (Json.str s) →
        jsToUpper s ∉ ["CALMING", "MOTIVATION", "STABILITY", "CRISIS_AWARE"] →
        (openRouterParse content (some (Json.obj fs))).mode =
          SupportMode.LISTENING.toStr) ∧
    (∀ v : Option Json, (∀ s, v ≠ some (Json.str s)) →
        coerceSupportMode v = SupportMode.LISTENING) ∧
    (∀ p : GeminiPayload, ∃ r : AIResult,
        analyzeMultimodalMood (Except.ok (some p)) = Except.ok r ∧
        r.mode = jsToUpper p.support_mode) := by
  refine ⟨?_, ?_, ?_⟩
  · intro content fs s hlk hnot
    have h1 : jsToUpper s ≠ "CALMING" := fun h => hnot (by simp [h])
    have h2 : jsToUpper s ≠ "MOTIVATION" := fun h => hnot (by simp [h])
    have h3 : jsToUpper s ≠ "STABILITY" := fun h => hnot (by simp [h])
    have h4 : jsToUpper s ≠ "CRISIS_AWARE" := fun h => hnot (by simp [h])
    show (coerceSupportMode (getField (Json.obj fs) "support_mode")).toStr = _
    rw [show getField (Json.obj fs) "support_mode" = some (Json.str s) from hlk]
    simp [coerceSupportMode, h1, h2, h3, h4]
  · intro v hv
    cases v with
    | none => simp [coerceSupportMode]
    | some j =>
      cases j with
      | null => simp [coerceSupportMode]
      | bool b => simp [coerceSupportMode]
      | num q => simp [coerceSupportMode]
      | str s => exact absurd rfl (hv s)
      | arr xs => simp [coerceSupportMode]
      | obj fs => simp [coerceSupportMode]
  · intro p
    exact ⟨_, rfl, rfl⟩

/-- C7 amended witness: a concrete out-of-enum support mode on the OpenRouter
path comes back as LISTENING. -/
theorem c7_amended_witness :
    (jsToUpper "zen" ∉ ["CALMING", "MOTIVATION", "STABILITY", "CRISIS_AWARE"]) ∧
    (openRouterParse "raw"
        (some (Json.obj [("support_mode", Json.str "zen")]))).mode =
      SupportMode.LISTENING.toStr :=
  ⟨by decide,
   c7_amended.1 "raw" [("support_mode", Json.str "zen")] "zen" rfl (by decide)⟩

/-- C5 counterexample: with guest mode active, mounting the chat window still
issues a conversations read — `loadConversations` awaits
`cloudService.getConversations()` without consulting the guest flag — so a
persistence (backend) call is issued during a guest session, refuting the
claim that no conversation read occurs while guest mode is active. -/
theorem c5_counterexample :
    loadConversationsCalls true = [Event.getConversationsCall] ∧
    (loadConversationsCalls true).countP isPersistCallEv = 1 := ⟨rfl, rfl⟩

/-- C5 amended: guest mode does gate the mood-entry upsert and the message
saves — a guest `handleMoodDetected` issues no persistence call and a guest
`handleSend` issues none either — but ChatWindow's conversation handling is
not gated: `loadConversations` issues a conversations read and `startNewChat`
attempts a conversation creation regardless of the guest flag (the creation
fails without an authenticated user and a temporary local id is used). -/
theorem c5_amended (mood : MoodState) (today : String)
    (prev : List MoodLogEntry) (so : Except String Unit)
    (st : ChatState) (now : Nat) (gem orr : Except String AIResult)
    (sU sA : Except String Unit) (title : String) :
    (handleMoodDetected mood today true prev so).trace = [] ∧
    ((handleSend st true now gem orr sU sA).trace).countP isPersistCallEv = 0 ∧
    loadConversationsCalls true = [Event.getConversationsCall] ∧
    startNewChatCalls true title = [Event.createConversationCall title] := by
  refine ⟨by simp [handleMoodDetected], ?_, rfl, rfl⟩
  cases hc : st.activeConvId with
  | none => simp [handleSend, hc]
  | some cid =>
    by_cases hg : jsTrim st.inputText = "" ∨ st.isTyping = true ∨ cid = ""
    · simp [handleSend, hc, hg]
    · push_neg at hg
      obtain ⟨htrim, htyp, hcne⟩ := hg
      rw [handleSend_eq st true now gem orr sU sA cid hc htrim
            (by simpa using htyp) hcne]
      simp only [Bool.not_true, Bool.false_and, Bool.false_eq_true, if_false,
                 ite_self]
      cases gem with
      | ok data =>
        rw [afterData_trace_eq]
        simp [List.countP_append, List.countP_cons, isPersistCallEv,
              afterDataTail_persist]
      | error e =>
        cases orr with
        | ok data =>
          rw [afterData_trace_eq]
          simp [List.countP_append, List.countP_cons, isPersistCallEv,
                afterDataTail_persist]
        | error e2 =>
          simp [List.countP_cons, isPersistCallEv]

/-- C9 counterexample: the `saveMessage` of the user message is awaited
outside `handleSend`'s try/finally; on a concrete authenticated state its
failure escapes the handler as an uncaught rejection — neither logged by the
handler nor swallowed — with the typing flag left set and no provider
attempted, refuting "no exception escapes the calling handler". -/
theorem c9_counterexample :
    (handleSend ⟨[], "hi", false, some "c1"⟩ false 3
        (Except.ok ⟨some defaultMoodJson, "LISTENING", some (Json.str "ok")⟩)
        (Except.ok ⟨some defaultMoodJson, "LISTENING", some (Json.str "ok")⟩)
        (Except.error "db down") (Except.ok ())).uncaught = some "db down" ∧
    ((handleSend ⟨[], "hi", false, some "c1"⟩ false 3
        (Except.ok ⟨some defaultMoodJson, "LISTENING", some (Json.str "ok")⟩)
        (Except.ok ⟨some defaultMoodJson, "LISTENING", some (Json.str "ok")⟩)
        (Except.error "db down") (Except.ok ())).trace).countP isGemCallEv = 0 ∧
    (handleSend ⟨[], "hi", false, some "c1"⟩ false 3
        (Except.ok ⟨some defaultMoodJson, "LISTENING", some (Json.str "ok")⟩)
        (Except.ok ⟨some defaultMoodJson, "LISTENING", some (Json.str "ok")⟩)
        (Except.error "db down") (Except.ok ())).st.isTyping = true :=
  ⟨rfl, rfl, rfl⟩

/-- C9 amended: `saveMoodEntry` failures inside `handleMoodDetected` are
swallowed (`.catch(console.error)`): the handler's outcome does not depend on
the save outcome, nothing escapes, and the locally updated mood log is
retained.  `saveMessage` failures inside `handleSend`, however, are not
silent: a failed save of the user message escapes the handler uncaught —
before any provider call, leaving the typing flag set, though the locally
appended user message is retained — and a failed save of the assistant
message is caught by the generic catch block, which appends a visible error
message to the transcript. -/
theorem c9_amended (st : ChatState) (isGuest : Bool) (now : Nat)
    (orr : Except String AIResult) (cid e : String) (data : AIResult)
    (hcid : st.activeConvId = some cid) (htrim : jsTrim st.inputText ≠ "")
    (htyp : st.isTyping = false) (hcne : cid ≠ "")
    (hguest : isGuest = false) (htemp : cid.startsWith "temp" = false)
    (hresp : jsFalsy data.response = false) :
    (∀ (mood : MoodState) (today : String) (g : Bool)
        (prev : List MoodLogEntry) (o1 o2 : Except String Unit),
        handleMoodDetected mood today g prev o1 =
          handleMoodDetected mood today g prev o2 ∧
        (handleMoodDetected mood today g prev o1).uncaught = none) ∧
    ((handleSend st isGuest now (Except.ok data) orr (Except.error e)
        (Except.ok ())).uncaught = some e ∧
     (handleSend st isGuest now (Except.ok data) orr (Except.error e)
        (Except.ok ())).st.messages =
       st.messages ++
         [⟨toString now, Role.user, Json.str st.inputText, now, none, none⟩] ∧
     (handleSend st isGuest now (Except.ok data) orr (Except.error e)
        (Except.ok ())).st.isTyping = true ∧
     ((handleSend st isGuest now (Except.ok data) orr (Except.error e)
        (Except.ok ())).trace).countP isGemCallEv = 0) ∧
    ((handleSend st isGuest now (Except.ok data) orr (Except.ok ())
        (Except.error e)).st.messages =
       st.messages ++
         [⟨toString now, Role.user, Json.str st.inputText, now, none, none⟩,
          ⟨toString (now + 1), Role.assistant, data.response.getD Json.null,
           now, data.mood_state, some data.mode⟩,
          mkErr now e] ∧
     (handleSend st isGuest now (Except.ok data) orr (Except.ok ())
        (Except.error e)).uncaught = none) := by
  subst hguest
  refine ⟨?_, ?_, ?_⟩
  · intro mood today g prev o1 o2
    cases g <;> exact ⟨rfl, rfl⟩
  · rw [handleSend_eq st false now (Except.ok data) orr (Except.error e)
        (Except.ok ()) cid hcid htrim htyp hcne]
    refine ⟨?_, ?_, ?_, ?_⟩ <;> simp [htemp, List.countP_cons, isGemCallEv]
  · rw [handleSend_eq st false now (Except.ok data) orr (Except.ok ())
        (Except.error e) cid hcid htrim htyp hcne]
    refine ⟨?_, ?_⟩ <;> simp [htemp, afterData, hresp]

/-- C9 amended witness: a concrete failing user-message save escapes the
handler. -/
theorem c9_amended_witness :
    jsTrim "hi" ≠ "" ∧
    (handleSend ⟨[], "hi", false, some "c1"⟩ false 3
        (Except.ok ⟨some defaultMoodJson, "LISTENING", some (Json.str "ok")⟩)
        (Except.ok ⟨some defaultMoodJson, "LISTENING", some (Json.str "ok")⟩)
        (Except.error "db down") (Except.ok ())).uncaught = some "db down" :=
  ⟨by decide,
   (c9_amended ⟨[], "hi", false, some "c1"⟩ false 3
      (Except.ok ⟨some defaultMoodJson, "LISTENING", some (Json.str "ok")⟩)
      "c1" "db down" ⟨some defaultMoodJson, "LISTENING", some (Json.str "ok")⟩
      rfl (by decide) rfl (by decide) rfl (by decide) rfl).2.1.1⟩
